import Mathlib

/-!
Shallow embedding of `src/server.js` (an Express survey backend with a
SQLite store, an in-memory conversation map, and a proxied LLM chat
endpoint), together with theorems settling the specification claims.

Modelling conventions:
* JavaScript request-body field values are modelled by `JSValue`
  (absent key = `undef`); JS truthiness and template-string
  interpolation are modelled by `truthy` and `jsToString`.
* The SQLite tables are modelled as lists of rows; `INSERT` appends,
  `INSERT OR REPLACE` on the primary key removes the conflicting row
  and appends (the observable SQLite semantics).
* The global `conversations` object (`conversations[userId][scenario]`)
  is modelled as a function from the two string property keys to an
  optional turn list (JS converts index keys to strings).
* The outbound gateway call (`fetch` to the model endpoint) is an
  external service; its outcome is a `GatewayResult` parameter:
  `ok reply` when the fetch resolved with a body whose
  `data.message.content` was extracted, `err` when the fetch rejected,
  the body was not JSON, or the extraction threw (malformed response).
* Each `new Date().toISOString()` call site is modelled by a timestamp
  string parameter; the chat handler takes the single timestamp
  sampled after the gateway call returns.
-/

namespace Survey

/-- JavaScript-like value for request body fields: an absent key
destructures to `undefined`; JSON bodies supply null, booleans,
numbers (modelled as integers) and strings. -/
inductive JSValue where
  | undef
  | nullv
  | boolv (b : Bool)
  | numv (n : Int)
  | strv (s : String)
  deriving DecidableEq

/-- JavaScript truthiness, as used by the `!field` validation checks:
`undefined`, `null`, `false`, `0` and the empty string are falsy. -/
def truthy : JSValue → Bool
  | .undef => false
  | .nullv => false
  | .boolv b => b
  | .numv n => n != 0
  | .strv s => s != ""

/-- JavaScript string conversion, as performed by template-string
interpolation and by object property indexing. -/
def jsToString : JSValue → String
  | .undef => "undefined"
  | .nullv => "null"
  | .boolv true => "true"
  | .boolv false => "false"
  | .numv n => toString n
  | .strv s => s

/-- One role-tagged message of an in-memory conversation. -/
structure Turn where
  role : String
  content : String
  deriving DecidableEq

/-- The in-memory conversation map `conversations[userId][scenario]`,
keyed by the stringified user id and scenario. -/
abbrev Convs : Type := String → String → Option (List Turn)

/-- Assignment `conversations[userId][scenario] = value`. -/
def setConvo (cs : Convs) (uid scn : String) (c : List Turn) : Convs :=
  fun u s => if u = uid ∧ s = scn then some c else cs u s

/-- Content of the fixed system instruction, parameterized only by the
scenario (the template literal in `initializeConversation`). -/
def systemContent (scn : String) : String :=
  "You are assisting a multilingual student in drafting academic communication for this scenario: "
    ++ scn ++
  ".\nProvide tone guidance and revisions only.\nDo not engage in unrelated conversation.\nKeep responses concise and focused on clarity, professionalism, and tone improvement."

/-- The `initializeConversation(userId, scenario)` function: sets the
conversation for the key to a single system turn. -/
def initializeConversation (cs : Convs) (uid scn : String) : Convs :=
  setConvo cs uid scn [⟨"system", systemContent scn⟩]

/-- Row of the `messages` audit table. The `participant_id` and
`scenario` columns are bound from the raw request values. -/
structure MessageRow where
  participant_id : JSValue
  scenario : JSValue
  role : String
  content : String
  timestamp : String
  deriving DecidableEq

/-- Row of the `demographics` table (`participant_id` is the primary
key). -/
structure DemographicsRow where
  participant_id : JSValue
  native_language : JSValue
  english_proficiency : JSValue
  years_in_us : JSValue
  ai_usage_frequency : JSValue
  deriving DecidableEq

/-- Row of the `survey_responses` table; `used_ai_behavioral` is stored
already coerced by the handler to `1` or `0`. -/
structure SurveyRow where
  participant_id : JSValue
  scenario : JSValue
  draft_text : JSValue
  used_ai_self_report : JSValue
  used_ai_behavioral : Nat
  perceived_risk : JSValue
  authenticity : JSValue
  timestamp : String
  deriving DecidableEq

/-- Row of the `final_drafts` table. -/
structure FinalDraftRow where
  participant_id : JSValue
  scenario : JSValue
  draft_text : JSValue
  timestamp : String
  deriving DecidableEq

/-- Row of the `participants` table (declared in the schema at the top
of `server.js`). -/
structure ParticipantRow where
  participant_id : JSValue
  created_at : String
  deriving DecidableEq

/-- The whole observable server state: the in-memory conversation map
plus the five SQLite tables. -/
structure ServerState where
  conversations : Convs
  participants : List ParticipantRow
  messages : List MessageRow
  survey_responses : List SurveyRow
  demographics : List DemographicsRow
  final_drafts : List FinalDraftRow

/-- State at process start: empty conversation map, all tables empty
(freshly created schema). -/
def initState : ServerState :=
  { conversations := fun _ _ => none
    participants := []
    messages := []
    survey_responses := []
    demographics := []
    final_drafts := [] }

/-- JSON response bodies the handlers produce. -/
inductive ResBody where
  | errorBody (msg : String)
  | statusSaved
  | replyBody (reply : String)
  | healthText (s : String)
  deriving DecidableEq

/-- An HTTP response: status code and JSON body. -/
structure HttpResponse where
  status : Nat
  body : ResBody
  deriving DecidableEq

/-- Request body of `POST /demographics`. -/
structure DemographicsBody where
  participant_id : JSValue
  native_language : JSValue
  english_proficiency : JSValue
  years_in_us : JSValue
  ai_usage_frequency : JSValue
  deriving DecidableEq

/-- Request body of `POST /survey-response`. -/
structure SurveyBody where
  participant_id : JSValue
  scenario : JSValue
  draft_text : JSValue
  used_ai_self_report : JSValue
  used_ai_behavioral : JSValue
  perceived_risk : JSValue
  authenticity : JSValue
  deriving DecidableEq

/-- Request body of `POST /chat`. -/
structure ChatBody where
  userId : JSValue
  message : JSValue
  scenario : JSValue
  draft : JSValue
  deriving DecidableEq

/-- Request body of `POST /save-draft`. -/
structure SaveDraftBody where
  participant_id : JSValue
  scenario : JSValue
  draft_text : JSValue
  deriving DecidableEq

/-- SQLite `INSERT OR REPLACE` into `demographics`: the row whose
primary key equals the new key is removed and the new row inserted. -/
def insertOrReplaceDemographics (tbl : List DemographicsRow) (r : DemographicsRow) :
    List DemographicsRow :=
  tbl.filter (fun x => !(x.participant_id == r.participant_id)) ++ [r]

/-- The demographics row a submission binds. -/
def demoRowOf (b : DemographicsBody) : DemographicsRow :=
  ⟨b.participant_id, b.native_language, b.english_proficiency,
   b.years_in_us, b.ai_usage_frequency⟩

/-- The `POST /demographics` handler. -/
def demographicsHandler (st : ServerState) (b : DemographicsBody) :
    ServerState × HttpResponse :=
  if !truthy b.participant_id then
    (st, ⟨400, .errorBody "Missing participant_id"⟩)
  else
    ({ st with demographics := insertOrReplaceDemographics st.demographics (demoRowOf b) },
     ⟨200, .statusSaved⟩)

/-- The `POST /survey-response` handler; `ts` models the
`new Date().toISOString()` evaluated at the insert. -/
def surveyResponseHandler (st : ServerState) (b : SurveyBody) (ts : String) :
    ServerState × HttpResponse :=
  if !truthy b.participant_id || !truthy b.scenario then
    (st, ⟨400, .errorBody "Missing required fields"⟩)
  else
    ({ st with survey_responses := st.survey_responses ++
        [⟨b.participant_id, b.scenario, b.draft_text, b.used_ai_self_report,
          (if truthy b.used_ai_behavioral then 1 else 0),
          b.perceived_risk, b.authenticity, ts⟩] },
     ⟨200, .statusSaved⟩)

/-- Outcome of the outbound gateway call, as consumed by the abstract
chat handler: `ok reply` when the fetch resolved and
`data.message.content` was the string `reply`; `err` when an exception
was thrown before the assistant turn is pushed — the fetch rejected,
the body was not JSON, or `data.message` was absent or null so that
reading `.content` threw. A response that parses but carries a
non-string `message.content` is not representable here; that path of
the program is modelled faithfully by `GatewayOutcome` and
`chatExchange` below. -/
inductive GatewayResult where
  | ok (reply : String)
  | err
  deriving DecidableEq

/-- Content of the user turn pushed onto the conversation
(template at the `convo.push` before the gateway call). -/
def chatUserTurnContent (draft message : JSValue) : String :=
  "Draft:\n" ++ jsToString draft ++ "\n\nUser request:\n" ++ jsToString message

/-- Content of the user audit row inserted into `messages`
(template at the first `db.prepare` insert in the chat handler). -/
def chatAuditUserContent (draft message : JSValue) : String :=
  "Draft:\n" ++ jsToString draft ++ "\nRequest:\n" ++ jsToString message

/-- The ensure step of the chat handler: initialize the conversation
only when the key has none. -/
def ensureConvs (cs : Convs) (uid scn : String) : Convs :=
  if (cs uid scn).isNone then initializeConversation cs uid scn else cs

/-- The conversation the chat handler operates on after the ensure
step: the existing one, or the fresh single-system-turn one. -/
def priorConvo (cs : Convs) (uid scn : String) : List Turn :=
  (cs uid scn).getD [⟨"system", systemContent scn⟩]

/-- Turns appended after the user turn, by gateway outcome: the
assistant turn on success, nothing on failure. -/
def gwTail : GatewayResult → List Turn
  | .ok reply => [⟨"assistant", reply⟩]
  | .err => []

/-- The `POST /chat` handler. `gw` is the gateway call outcome and
`ts` the `new Date().toISOString()` sampled after the gateway call
returns (used for both audit rows). -/
def chatHandler (st : ServerState) (b : ChatBody) (gw : GatewayResult) (ts : String) :
    ServerState × HttpResponse :=
  if !truthy b.userId || !truthy b.message || !truthy b.scenario then
    (st, ⟨400, .errorBody "Missing userId, message, or scenario"⟩)
  else
    let uid := jsToString b.userId
    let scn := jsToString b.scenario
    let cs0 := ensureConvs st.conversations uid scn
    let convo1 := (cs0 uid scn).getD [] ++ [⟨"user", chatUserTurnContent b.draft b.message⟩]
    match gw with
    | .err =>
        ({ st with conversations := setConvo cs0 uid scn convo1 },
         ⟨500, .errorBody "Chat failed"⟩)
    | .ok reply =>
        ({ st with
            conversations := setConvo cs0 uid scn (convo1 ++ [⟨"assistant", reply⟩])
            messages := st.messages ++
              [⟨b.userId, b.scenario, "user", chatAuditUserContent b.draft b.message, ts⟩,
               ⟨b.userId, b.scenario, "assistant", reply, ts⟩] },
         ⟨200, .replyBody reply⟩)

/-- The `POST /save-draft` handler; `ts` models the
`new Date().toISOString()` evaluated at the insert. -/
def saveDraftHandler (st : ServerState) (b : SaveDraftBody) (ts : String) :
    ServerState × HttpResponse :=
  if !truthy b.participant_id || !truthy b.scenario || !truthy b.draft_text then
    (st, ⟨400, .errorBody "Missing required fields"⟩)
  else
    ({ st with final_drafts := st.final_drafts ++
        [⟨b.participant_id, b.scenario, b.draft_text, ts⟩] },
     ⟨200, .statusSaved⟩)

/-- The `GET /health` handler. -/
def healthHandler (st : ServerState) : ServerState × HttpResponse :=
  (st, ⟨200, .healthText "Survey server is running."⟩)

/-- One inbound request, with the external inputs (gateway outcome,
clock samples) each handler consumes. -/
inductive Request where
  | demographics (b : DemographicsBody)
  | surveyResponse (b : SurveyBody) (ts : String)
  | chat (b : ChatBody) (gw : GatewayResult) (ts : String)
  | saveDraft (b : SaveDraftBody) (ts : String)
  | health

/-- Dispatch one request to its handler. -/
def handle (st : ServerState) : Request → ServerState × HttpResponse
  | .demographics b => demographicsHandler st b
  | .surveyResponse b ts => surveyResponseHandler st b ts
  | .chat b gw ts => chatHandler st b gw ts
  | .saveDraft b ts => saveDraftHandler st b ts
  | .health => healthHandler st

/-- Run a sequence of requests, threading the state. -/
def runRequests (st : ServerState) : List Request → ServerState
  | [] => st
  | r :: rs => runRequests (handle st r).1 rs

/-- A state is reachable when some request sequence produces it from
the start state. -/
def Reachable (st : ServerState) : Prop :=
  ∃ rs, runRequests initState rs = st

/-- Run a sequence of demographics submissions. -/
def runDemographics (st : ServerState) : List DemographicsBody → ServerState
  | [] => st
  | b :: bs => runDemographics (demographicsHandler st b).1 bs

/-- One conversation turn holding the raw JS content value. Needed for
the real error path of the chat handler: when the gateway response is
malformed, the assistant push stores botReply — a non-string value
such as null or undefined — as the turn content. -/
structure RawTurn where
  role : String
  content : JSValue
  deriving DecidableEq

/-- One row of the `messages` audit table holding the raw bound value
of the content column (the assistant insert can bind null). -/
structure RawMessageRow where
  participant_id : JSValue
  scenario : JSValue
  role : String
  content : JSValue
  timestamp : String
  deriving DecidableEq

/-- Parsed JSON body of a gateway response, as far as the chat handler
reads it: `noMessage` when `data.message` is undefined or null, so
that reading `.content` throws a TypeError; `message content` when
`data.message` is present, with `content` the JS value of
`data.message.content` (undef when the key is missing or when
`data.message` is a primitive). -/
inductive GatewayData where
  | noMessage
  | message (content : JSValue)
  deriving DecidableEq

/-- Refined outcome of the outbound chat fetch: the await chain throws
before a body is available (`reject`: rejected fetch or non-JSON
body), or a JSON body is parsed. -/
inductive GatewayOutcome where
  | reject
  | response (data : GatewayData)
  deriving DecidableEq

/-- Bind rule of the SQLite driver (better-sqlite3): run() accepts
strings, numbers and null as parameter values and throws a TypeError
on undefined or a boolean. -/
def bindable : JSValue → Bool
  | .undef => false
  | .boolv _ => false
  | .nullv => true
  | .numv _ => true
  | .strv _ => true

/-- Response body sent by the refined chat exchange: the reply object
carries the raw botReply value, which res.json serializes. -/
inductive RawResBody where
  | errorBody (msg : String)
  | replyBody (reply : JSValue)
  deriving DecidableEq

/-- Result of one attempted chat exchange in the refined model: the
conversation for the request key after the handler ran, the audit rows
actually inserted, and the HTTP status and body sent. -/
structure ChatAttempt where
  convo : List RawTurn
  rows : List RawMessageRow
  status : Nat
  body : RawResBody
  deriving DecidableEq

/-- Refined model of the chat exchange (server.js lines 183 to 221),
operating on the already-ensured conversation for the request key:
push the user turn; unless the await chain threw, extract
botReply = data.message.content (a throw when message is absent or
null), push the assistant turn, then run the two audit inserts in
order, where an insert throws exactly when one of its bound values is
not bindable; any throw is caught by the surrounding try and answered
with the generic 500 body, keeping every side effect that already
happened. -/
def chatExchange (convo0 : List RawTurn) (b : ChatBody) (out : GatewayOutcome)
    (ts : String) : ChatAttempt :=
  let convo1 := convo0 ++ [⟨"user", .strv (chatUserTurnContent b.draft b.message)⟩]
  match out with
  | .reject => ⟨convo1, [], 500, .errorBody "Chat failed"⟩
  | .response .noMessage => ⟨convo1, [], 500, .errorBody "Chat failed"⟩
  | .response (.message content) =>
      let convo2 := convo1 ++ [⟨"assistant", content⟩]
      if bindable b.userId && bindable b.scenario then
        if bindable content then
          ⟨convo2,
           [⟨b.userId, b.scenario, "user", .strv (chatAuditUserContent b.draft b.message), ts⟩,
            ⟨b.userId, b.scenario, "assistant", content, ts⟩],
           200, .replyBody content⟩
        else
          ⟨convo2,
           [⟨b.userId, b.scenario, "user", .strv (chatAuditUserContent b.draft b.message), ts⟩],
           500, .errorBody "Chat failed"⟩
      else
        ⟨convo2, [], 500, .errorBody "Chat failed"⟩

/-- Basic fact: the assignment is read back at the same key. -/
theorem setConvo_self (cs : Convs) (uid scn : String) (c : List Turn) :
    setConvo cs uid scn c uid scn = some c := by
  simp [setConvo]

/-- Basic fact: the assignment leaves other keys untouched. -/
theorem setConvo_other (cs : Convs) (uid scn : String) (c : List Turn) (u s : String)
    (h : ¬(u = uid ∧ s = scn)) : setConvo cs uid scn c u s = cs u s := by
  simp only [setConvo, if_neg h]

/-- The ensure step yields, at its own key, the existing conversation
or the fresh single-system-turn conversation. -/
theorem ensureConvs_self (cs : Convs) (uid scn : String) :
    ensureConvs cs uid scn uid scn = some (priorConvo cs uid scn) := by
  unfold ensureConvs priorConvo initializeConversation
  cases h : cs uid scn with
  | none => simp [h, setConvo_self]
  | some c => simp [h]

/-- Behaviour of the chat handler on a validated request, for both
gateway outcomes: the conversation at the request key becomes the
prior conversation plus the pushed user turn plus `gwTail gw`; the
audit rows and the response depend on the outcome; the other tables
are untouched. -/
theorem chatHandler_valid (st : ServerState) (b : ChatBody) (gw : GatewayResult) (ts : String)
    (hu : truthy b.userId = true) (hm : truthy b.message = true)
    (hs : truthy b.scenario = true) :
    (chatHandler st b gw ts).1.conversations (jsToString b.userId) (jsToString b.scenario)
      = some (priorConvo st.conversations (jsToString b.userId) (jsToString b.scenario)
          ++ ⟨"user", chatUserTurnContent b.draft b.message⟩ :: gwTail gw) ∧
    (chatHandler st b gw ts).1.messages = st.messages ++ (match gw with
      | .ok reply =>
          [⟨b.userId, b.scenario, "user", chatAuditUserContent b.draft b.message, ts⟩,
           ⟨b.userId, b.scenario, "assistant", reply, ts⟩]
      | .err => []) ∧
    (chatHandler st b gw ts).2 = (match gw with
      | .ok reply => ⟨200, .replyBody reply⟩
      | .err => ⟨500, .errorBody "Chat failed"⟩) ∧
    (chatHandler st b gw ts).1.participants = st.participants ∧
    (chatHandler st b gw ts).1.survey_responses = st.survey_responses ∧
    (chatHandler st b gw ts).1.demographics = st.demographics ∧
    (chatHandler st b gw ts).1.final_drafts = st.final_drafts := by
  cases gw with
  | err =>
      simp [chatHandler, hu, hm, hs, ensureConvs_self, setConvo_self, gwTail]
  | ok reply =>
      simp [chatHandler, hu, hm, hs, ensureConvs_self, setConvo_self, gwTail]

/-- Behaviour of the chat handler when validation fails: nothing
happens and the fixed 400 response is returned. -/
theorem chatHandler_invalid (st : ServerState) (b : ChatBody) (gw : GatewayResult) (ts : String)
    (h : (!truthy b.userId || !truthy b.message || !truthy b.scenario) = true) :
    chatHandler st b gw ts = (st, ⟨400, .errorBody "Missing userId, message, or scenario"⟩) := by
  simp [chatHandler, h]

/-- The user audit row template and the user conversation turn
template produce different strings for every draft and message (their
lengths differ by the fixed infix). -/
theorem auditContent_ne_turnContent (d m : JSValue) :
    chatAuditUserContent d m ≠ chatUserTurnContent d m := by
  intro h
  have hl := congrArg String.length h
  simp only [chatAuditUserContent, chatUserTurnContent, String.length_append] at hl
  have h7 : ("Draft:\n" : String).length = 7 := rfl
  have h10 : ("\nRequest:\n" : String).length = 10 := rfl
  have h16 : ("\n\nUser request:\n" : String).length = 16 := rfl
  rw [h7, h10, h16] at hl
  omega

/-- Inserting with `INSERT OR REPLACE` leaves exactly the new row
among the rows whose primary key equals the given id. -/
theorem filter_insertOrReplace (tbl : List DemographicsRow) (r : DemographicsRow)
    (pid : JSValue) (h : r.participant_id = pid) :
    (insertOrReplaceDemographics tbl r).filter (fun x => x.participant_id == pid) = [r] := by
  subst h
  unfold insertOrReplaceDemographics
  rw [List.filter_append, List.filter_filter]
  simp

/-- Invariant: every conversation present in the store begins with the
fixed system turn for its scenario key. -/
def convOk (st : ServerState) : Prop :=
  ∀ uid scn c, st.conversations uid scn = some c →
    c.head? = some ⟨"system", systemContent scn⟩

/-- The ensure step preserves the invariant pointwise. -/
theorem convOk_ensure (cs : Convs) (uid scn : String)
    (h : ∀ u s c, cs u s = some c → c.head? = some ⟨"system", systemContent s⟩)
    (u s : String) (c : List Turn) (hc : ensureConvs cs uid scn u s = some c) :
    c.head? = some ⟨"system", systemContent s⟩ := by
  unfold ensureConvs initializeConversation at hc
  by_cases hn : (cs uid scn).isNone
  · rw [if_pos hn] at hc
    unfold setConvo at hc
    by_cases hk : u = uid ∧ s = scn
    · rw [if_pos hk] at hc
      obtain ⟨-, hk2⟩ := hk
      subst hk2
      cases hc
      rfl
    · rw [if_neg hk] at hc
      exact h u s c hc
  · rw [if_neg hn] at hc
    exact h u s c hc

/-- The head of a list extended on the right is unchanged when the
head exists. -/
theorem head?_append_of_head? {α : Type} (l t : List α) (a : α)
    (h : l.head? = some a) : (l ++ t).head? = some a := by
  cases l with
  | nil => cases h
  | cons x xs => simpa using h

/-- The demographics handler never touches the conversation map. -/
theorem demographicsHandler_conversations (st : ServerState) (b : DemographicsBody) :
    (demographicsHandler st b).1.conversations = st.conversations := by
  unfold demographicsHandler
  split <;> rfl

/-- The survey handler never touches the conversation map. -/
theorem surveyResponseHandler_conversations (st : ServerState) (b : SurveyBody) (ts : String) :
    (surveyResponseHandler st b ts).1.conversations = st.conversations := by
  unfold surveyResponseHandler
  split <;> rfl

/-- The save-draft handler never touches the conversation map. -/
theorem saveDraftHandler_conversations (st : ServerState) (b : SaveDraftBody) (ts : String) :
    (saveDraftHandler st b ts).1.conversations = st.conversations := by
  unfold saveDraftHandler
  split <;> rfl

/-- The whole conversation map produced by a validated chat request:
the request key is overwritten with the extended conversation, on top
of the ensured map. -/
theorem chatHandler_valid_conversations (st : ServerState) (b : ChatBody)
    (gw : GatewayResult) (ts : String)
    (hu : truthy b.userId = true) (hm : truthy b.message = true)
    (hs : truthy b.scenario = true) :
    (chatHandler st b gw ts).1.conversations
      = setConvo (ensureConvs st.conversations (jsToString b.userId) (jsToString b.scenario))
          (jsToString b.userId) (jsToString b.scenario)
          (priorConvo st.conversations (jsToString b.userId) (jsToString b.scenario)
            ++ ⟨"user", chatUserTurnContent b.draft b.message⟩ :: gwTail gw) := by
  cases gw with
  | err => simp [chatHandler, hu, hm, hs, ensureConvs_self, gwTail]
  | ok reply => simp [chatHandler, hu, hm, hs, ensureConvs_self, gwTail]

/-- One dispatched request preserves the conversation invariant. -/
theorem convOk_handle (st : ServerState) (r : Request) (h : convOk st) :
    convOk (handle st r).1 := by
  cases r with
  | demographics b =>
      intro u s c hc
      rw [show (handle st (.demographics b)).1 = (demographicsHandler st b).1 from rfl,
        demographicsHandler_conversations] at hc
      exact h u s c hc
  | surveyResponse b ts =>
      intro u s c hc
      rw [show (handle st (.surveyResponse b ts)).1 = (surveyResponseHandler st b ts).1 from rfl,
        surveyResponseHandler_conversations] at hc
      exact h u s c hc
  | saveDraft b ts =>
      intro u s c hc
      rw [show (handle st (.saveDraft b ts)).1 = (saveDraftHandler st b ts).1 from rfl,
        saveDraftHandler_conversations] at hc
      exact h u s c hc
  | health => exact h
  | chat b gw ts =>
      show convOk (chatHandler st b gw ts).1
      by_cases hv : (!truthy b.userId || !truthy b.message || !truthy b.scenario) = true
      · rw [chatHandler_invalid st b gw ts hv]
        exact h
      · have hv3 : truthy b.userId = true ∧ truthy b.message = true ∧
            truthy b.scenario = true := by
          simpa [Bool.or_eq_true, Bool.not_eq_true, and_assoc] using hv
        obtain ⟨hu, hm, hs⟩ := hv3
        intro u s c hc
        rw [chatHandler_valid_conversations st b gw ts hu hm hs] at hc
        unfold setConvo at hc
        by_cases hk : u = jsToString b.userId ∧ s = jsToString b.scenario
        · rw [if_pos hk] at hc
          obtain ⟨hk1, hk2⟩ := hk
          subst hk1; subst hk2
          cases hc
          refine head?_append_of_head? _ _ _ ?_
          exact convOk_ensure st.conversations (jsToString b.userId) (jsToString b.scenario)
            h (jsToString b.userId) (jsToString b.scenario)
            (priorConvo st.conversations (jsToString b.userId) (jsToString b.scenario))
            (ensureConvs_self _ _ _)
        · rw [if_neg hk] at hc
          exact convOk_ensure st.conversations _ _ h u s c hc

/-- Running any request sequence preserves the conversation
invariant. -/
theorem convOk_runRequests (rs : List Request) (st : ServerState) (h : convOk st) :
    convOk (runRequests st rs) := by
  induction rs generalizing st with
  | nil => exact h
  | cons r rest ih => exact ih (handle st r).1 (convOk_handle st r h)

/-- The start state satisfies the conversation invariant vacuously. -/
theorem convOk_initState : convOk initState := by
  intro u s c hc
  cases hc

/-- Claim C1: for every chat request with truthy userId, message and
scenario whose gateway call succeeds with reply content `reply`, the
handler appends exactly one user turn and then exactly one assistant
turn to the conversation at the request key, writes exactly two audit
rows (first role user, then role assistant) both carrying the single
timestamp `ts` sampled after the gateway call returned, and responds
200 with the reply equal to the gateway reply content. -/
theorem chat_success_exchange (st : ServerState) (b : ChatBody) (reply ts : String)
    (hu : truthy b.userId = true) (hm : truthy b.message = true)
    (hs : truthy b.scenario = true) :
    (chatHandler st b (.ok reply) ts).1.conversations (jsToString b.userId) (jsToString b.scenario)
      = some (priorConvo st.conversations (jsToString b.userId) (jsToString b.scenario)
          ++ [⟨"user", chatUserTurnContent b.draft b.message⟩, ⟨"assistant", reply⟩]) ∧
    (chatHandler st b (.ok reply) ts).1.messages
      = st.messages ++
          [⟨b.userId, b.scenario, "user", chatAuditUserContent b.draft b.message, ts⟩,
           ⟨b.userId, b.scenario, "assistant", reply, ts⟩] ∧
    (chatHandler st b (.ok reply) ts).2 = ⟨200, .replyBody reply⟩ := by
  obtain ⟨h1, h2, h3, -⟩ := chatHandler_valid st b (.ok reply) ts hu hm hs
  exact ⟨h1, h2, h3⟩

/-- Witness for C1: the concrete exchange of the spec example returns
the gateway reply. -/
theorem chat_success_exchange_witness :
    (chatHandler initState ⟨.strv "p1", .strv "hi", .strv "s", .strv "d"⟩ (.ok "ok") "t").2
      = ⟨200, .replyBody "ok"⟩ :=
  (chat_success_exchange initState ⟨.strv "p1", .strv "hi", .strv "s", .strv "d"⟩
    "ok" "t" rfl rfl rfl).2.2

/-- On a parsed response whose content is a string, with bindable id
values, the refined exchange agrees with the success path of the
abstract handler: user and assistant turns pushed, both audit rows
inserted, 200 with the reply. -/
theorem chatExchange_string_reply (convo0 : List RawTurn) (b : ChatBody) (reply ts : String)
    (h1 : bindable b.userId = true) (h2 : bindable b.scenario = true) :
    chatExchange convo0 b (.response (.message (.strv reply))) ts
      = ⟨convo0 ++ [⟨"user", .strv (chatUserTurnContent b.draft b.message)⟩,
                    ⟨"assistant", .strv reply⟩],
         [⟨b.userId, b.scenario, "user", .strv (chatAuditUserContent b.draft b.message), ts⟩,
          ⟨b.userId, b.scenario, "assistant", .strv reply, ts⟩],
         200, .replyBody (.strv reply)⟩ := by
  simp [chatExchange, h1, h2, show bindable (.strv reply) = true from rfl]

/-- Claim C2 counterexample: a gateway response that parses as a JSON
object with message.content equal to null is a malformed response, yet
the exchange appends an assistant turn (content null), writes both
audit rows, and answers 200 with reply null — contradicting every part
of the claim (no rows, a generic 500, an unanswered trailing user
turn) at this concrete input. -/
theorem chat_malformed_response_counterexample :
    ((chatExchange [⟨"system", .strv (systemContent "s")⟩]
        ⟨.strv "p1", .strv "hi", .strv "s", .strv "d"⟩
        (.response (.message .nullv)) "t").rows.length = 2) ∧
    ((chatExchange [⟨"system", .strv (systemContent "s")⟩]
        ⟨.strv "p1", .strv "hi", .strv "s", .strv "d"⟩
        (.response (.message .nullv)) "t").status = 200) ∧
    ((chatExchange [⟨"system", .strv (systemContent "s")⟩]
        ⟨.strv "p1", .strv "hi", .strv "s", .strv "d"⟩
        (.response (.message .nullv)) "t").body = .replyBody .nullv) ∧
    ((chatExchange [⟨"system", .strv (systemContent "s")⟩]
        ⟨.strv "p1", .strv "hi", .strv "s", .strv "d"⟩
        (.response (.message .nullv)) "t").convo
      = [⟨"system", .strv (systemContent "s")⟩,
         ⟨"user", .strv (chatUserTurnContent (.strv "d") (.strv "hi"))⟩,
         ⟨"assistant", .nullv⟩]) :=
  ⟨rfl, rfl, rfl, rfl⟩

/-- Claim C2 amended: for every chat request with truthy userId,
message and scenario where the gateway call fails by throwing before
the assistant turn is pushed — the fetch rejected, the body was not
JSON, or the response had no message object so that reading
message.content threw — no audit row is written, the response is the
generic 500 body with no internal exception text, and the conversation
is left with the unanswered trailing user turn and no assistant turn;
stated in the refined model of the exchange and, for the conversation
map at the request key, in the abstract handler whose err outcome is
exactly this throwing case. -/
theorem chat_gateway_throw_failure (st : ServerState) (b : ChatBody) (ts : String)
    (convo0 : List RawTurn) (out : GatewayOutcome)
    (hu : truthy b.userId = true) (hm : truthy b.message = true)
    (hs : truthy b.scenario = true)
    (hout : out = .reject ∨ out = .response .noMessage) :
    chatExchange convo0 b out ts
      = ⟨convo0 ++ [⟨"user", .strv (chatUserTurnContent b.draft b.message)⟩], [],
         500, .errorBody "Chat failed"⟩ ∧
    (chatHandler st b .err ts).1.messages = st.messages ∧
    (chatHandler st b .err ts).2 = ⟨500, .errorBody "Chat failed"⟩ ∧
    (chatHandler st b .err ts).1.conversations (jsToString b.userId) (jsToString b.scenario)
      = some (priorConvo st.conversations (jsToString b.userId) (jsToString b.scenario)
          ++ [⟨"user", chatUserTurnContent b.draft b.message⟩]) := by
  obtain ⟨h1, h2, h3, -, -, -, -⟩ := chatHandler_valid st b .err ts hu hm hs
  refine ⟨?_, by simpa using h2, h3, by simpa [gwTail] using h1⟩
  rcases hout with h | h <;> subst h <;> rfl

/-- Witness for the amended C2: a concrete rejected fetch writes
nothing and yields the generic 500. -/
theorem chat_gateway_throw_failure_witness :
    chatExchange [⟨"system", .strv (systemContent "s")⟩]
        ⟨.strv "p1", .strv "hi", .strv "s", .strv "d"⟩ .reject "t"
      = ⟨[⟨"system", .strv (systemContent "s")⟩,
          ⟨"user", .strv (chatUserTurnContent (.strv "d") (.strv "hi"))⟩], [],
         500, .errorBody "Chat failed"⟩ :=
  (chat_gateway_throw_failure initState ⟨.strv "p1", .strv "hi", .strv "s", .strv "d"⟩ "t"
    [⟨"system", .strv (systemContent "s")⟩] .reject rfl rfl rfl (Or.inl rfl)).1

/-- Claim C3 counterexample: at a concrete successful exchange the
content of the user audit row written to the messages table differs
from the content of the user turn appended to the in-memory
conversation (the handler uses two different templates). -/
theorem chat_audit_trace_counterexample :
    ((chatHandler initState ⟨.strv "p1", .strv "hi", .strv "s", .strv "d"⟩ (.ok "ok") "t").1.messages.map
        MessageRow.content = ["Draft:\nd\nRequest:\nhi", "ok"]) ∧
    (((chatHandler initState ⟨.strv "p1", .strv "hi", .strv "s", .strv "d"⟩ (.ok "ok") "t").1.conversations
        "p1" "s").map (List.map Turn.content)
      = some [systemContent "s", "Draft:\nd\n\nUser request:\nhi", "ok"]) ∧
    ("Draft:\nd\nRequest:\nhi" : String) ≠ "Draft:\nd\n\nUser request:\nhi" :=
  ⟨rfl, rfl, by decide⟩

/-- Claim C3 amended: for every successful chat exchange the assistant
audit row content equals the appended assistant turn content (both are
the gateway reply), while the user audit row records the draft and
message under a different fixed template than the appended user turn
(single newline and the word Request instead of a blank line and the
words User request); the two user contents are never equal. -/
theorem chat_audit_trace_amended (st : ServerState) (b : ChatBody) (reply ts : String)
    (hu : truthy b.userId = true) (hm : truthy b.message = true)
    (hs : truthy b.scenario = true) :
    ((chatHandler st b (.ok reply) ts).1.messages.map (fun r => (r.role, r.content))
      = st.messages.map (fun r => (r.role, r.content)) ++
          [("user", chatAuditUserContent b.draft b.message), ("assistant", reply)]) ∧
    ((chatHandler st b (.ok reply) ts).1.conversations (jsToString b.userId) (jsToString b.scenario)
      = some (priorConvo st.conversations (jsToString b.userId) (jsToString b.scenario)
          ++ [⟨"user", chatUserTurnContent b.draft b.message⟩, ⟨"assistant", reply⟩])) ∧
    chatAuditUserContent b.draft b.message ≠ chatUserTurnContent b.draft b.message := by
  obtain ⟨h1, h2, -, -⟩ := chatHandler_valid st b (.ok reply) ts hu hm hs
  refine ⟨?_, h1, auditContent_ne_turnContent b.draft b.message⟩
  rw [h2]
  simp

/-- Witness for the amended C3 at the concrete exchange. -/
theorem chat_audit_trace_amended_witness :
    chatAuditUserContent (.strv "d") (.strv "hi") ≠ chatUserTurnContent (.strv "d") (.strv "hi") :=
  (chat_audit_trace_amended initState ⟨.strv "p1", .strv "hi", .strv "s", .strv "d"⟩
    "ok" "t" rfl rfl rfl).2.2

/-- No handler ever changes the participants table. -/
theorem handle_participants (st : ServerState) (r : Request) :
    (handle st r).1.participants = st.participants := by
  cases r with
  | demographics b =>
      show (demographicsHandler st b).1.participants = st.participants
      unfold demographicsHandler
      split <;> rfl
  | surveyResponse b ts =>
      show (surveyResponseHandler st b ts).1.participants = st.participants
      unfold surveyResponseHandler
      split <;> rfl
  | chat b gw ts =>
      show (chatHandler st b gw ts).1.participants = st.participants
      unfold chatHandler
      split
      · rfl
      · cases gw <;> rfl
  | saveDraft b ts =>
      show (saveDraftHandler st b ts).1.participants = st.participants
      unfold saveDraftHandler
      split <;> rfl
  | health => rfl

/-- The participants table is unchanged across any request sequence. -/
theorem runRequests_participants (rs : List Request) (st : ServerState) :
    (runRequests st rs).participants = st.participants := by
  induction rs generalizing st with
  | nil => rfl
  | cons r rest ih =>
      show (runRequests (handle st r).1 rest).participants = st.participants
      rw [ih, handle_participants]

/-- Claim C4 counterexample: a first valid demographic submission and
a first valid survey submission both succeed with the saved status,
yet the participants collection stays empty — no participant record is
created on a first submission. -/
theorem participants_never_created_counterexample :
    ((demographicsHandler initState ⟨.strv "p1", .strv "es", .numv 4, .numv 2, .numv 3⟩).2
      = ⟨200, .statusSaved⟩) ∧
    ((demographicsHandler initState ⟨.strv "p1", .strv "es", .numv 4, .numv 2, .numv 3⟩).1.participants
      = []) ∧
    ((surveyResponseHandler initState
        ⟨.strv "p1", .strv "s", .strv "d", .strv "no", .boolv true, .numv 3, .numv 4⟩ "t").2
      = ⟨200, .statusSaved⟩) ∧
    ((surveyResponseHandler initState
        ⟨.strv "p1", .strv "s", .strv "d", .strv "no", .boolv true, .numv 3, .numv 4⟩ "t").1.participants
      = []) :=
  ⟨rfl, rfl, rfl, rfl⟩

/-- Claim C4 amended: no operation ever writes the participants
collection — no handler inserts, mutates or deletes a participant
record (so in every reachable state the collection is still empty; in
particular no record is created on a first demographic or survey
submission). -/
theorem participants_table_never_written (st : ServerState) (r : Request) :
    (handle st r).1.participants = st.participants ∧
    (Reachable st → st.participants = []) := by
  refine ⟨handle_participants st r, ?_⟩
  rintro ⟨rs, rfl⟩
  rw [runRequests_participants]
  rfl

/-- Witness for the amended C4 at the start state. -/
theorem participants_table_never_written_witness :
    (handle initState Request.health).1.participants = initState.participants ∧
    initState.participants = [] :=
  ⟨(participants_table_never_written initState .health).1,
   (participants_table_never_written initState .health).2 ⟨[], rfl⟩⟩

/-- Claim C5: in every reachable state, every conversation present in
the store has as its first element the fixed scenario-parameterized
system turn; since reachability ranges over all request sequences,
this holds after every chat request, first or later, with a
successful or failed gateway call. -/
theorem conversation_head_system (st : ServerState) (hr : Reachable st)
    (uid scn : String) (c : List Turn)
    (hc : st.conversations uid scn = some c) :
    c.head? = some ⟨"system", systemContent scn⟩ := by
  obtain ⟨rs, hrs⟩ := hr
  subst hrs
  exact convOk_runRequests rs initState convOk_initState uid scn c hc

/-- Witness for C5 after one concrete chat request. -/
theorem conversation_head_system_witness :
    ([⟨"system", systemContent "s"⟩,
      ⟨"user", chatUserTurnContent (.strv "d") (.strv "hi")⟩,
      ⟨"assistant", "ok"⟩] : List Turn).head?
      = some ⟨"system", systemContent "s"⟩ :=
  conversation_head_system
    (runRequests initState [.chat ⟨.strv "p1", .strv "hi", .strv "s", .strv "d"⟩ (.ok "ok") "t"])
    ⟨[.chat ⟨.strv "p1", .strv "hi", .strv "s", .strv "d"⟩ (.ok "ok") "t"], rfl⟩
    "p1" "s" _ rfl

/-- Claim C6: the ensure step is idempotent — a chat request whose key
already has a conversation never resets it: the previously accumulated
turns stay as an unchanged initial segment and the new turns are
appended after them (the user turn, plus the assistant turn exactly
when the gateway succeeds). -/
theorem ensure_step_idempotent (st : ServerState) (b : ChatBody) (gw : GatewayResult)
    (ts : String) (c : List Turn)
    (hu : truthy b.userId = true) (hm : truthy b.message = true)
    (hs : truthy b.scenario = true)
    (hex : st.conversations (jsToString b.userId) (jsToString b.scenario) = some c) :
    (chatHandler st b gw ts).1.conversations (jsToString b.userId) (jsToString b.scenario)
      = some (c ++ ⟨"user", chatUserTurnContent b.draft b.message⟩ :: gwTail gw) := by
  have h1 := (chatHandler_valid st b gw ts hu hm hs).1
  rw [h1]
  simp [priorConvo, hex]

/-- Witness for C6: a second chat request on the same key extends the
conversation produced by the first. -/
theorem ensure_step_idempotent_witness :
    (chatHandler (chatHandler initState ⟨.strv "p1", .strv "hi", .strv "s", .strv "d"⟩ (.ok "ok") "t").1
        ⟨.strv "p1", .strv "more", .strv "s", .strv "d2"⟩ .err "t2").1.conversations "p1" "s"
      = some ([⟨"system", systemContent "s"⟩,
               ⟨"user", chatUserTurnContent (.strv "d") (.strv "hi")⟩,
               ⟨"assistant", "ok"⟩]
          ++ ⟨"user", chatUserTurnContent (.strv "d2") (.strv "more")⟩ :: gwTail .err) :=
  ensure_step_idempotent _ ⟨.strv "p1", .strv "more", .strv "s", .strv "d2"⟩ .err "t2"
    _ rfl rfl rfl rfl

/-- Claim C7: demographics submission has upsert-by-participant-id
semantics — after any nonempty sequence of valid submissions with the
same participant id, run from any state, the demographics table holds
exactly one row for that id and it carries exactly the field values of
the latest submission (full replacement, no merge). -/
theorem demographics_upsert_latest (st : ServerState) (bs : List DemographicsBody)
    (pid : JSValue) (b : DemographicsBody)
    (hlast : bs.getLast? = some b)
    (hall : ∀ x ∈ bs, x.participant_id = pid)
    (hp : truthy pid = true) :
    (runDemographics st bs).demographics.filter (fun r => r.participant_id == pid)
      = [demoRowOf b] := by
  revert hlast hall
  induction bs generalizing st with
  | nil =>
      intro hlast _
      simp at hlast
  | cons b0 rest ih =>
      intro hlast hall
      cases rest with
      | nil =>
          have hb : b0 = b := by simpa using hlast
          subst hb
          have hp0 : truthy b0.participant_id = true := by
            rw [hall b0 (List.mem_singleton_self b0)]
            exact hp
          show (demographicsHandler st b0).1.demographics.filter _ = _
          unfold demographicsHandler
          rw [if_neg (by simp [hp0])]
          exact filter_insertOrReplace st.demographics (demoRowOf b0) pid
            (hall b0 (List.mem_singleton_self b0))
      | cons b1 rest1 =>
          have hlast2 : (b1 :: rest1).getLast? = some b := by
            rw [List.getLast?_cons_cons] at hlast
            exact hlast
          show (runDemographics (demographicsHandler st b0).1 (b1 :: rest1)).demographics.filter _ = _
          exact ih (demographicsHandler st b0).1 hlast2
            (fun x hx => hall x (List.mem_cons_of_mem b0 hx))

/-- Witness for C7 with the two submissions of the spec example: only
the resubmitted values survive. -/
theorem demographics_upsert_latest_witness :
    (runDemographics initState
        [⟨.strv "p1", .strv "es", .numv 4, .numv 2, .numv 3⟩,
         ⟨.strv "p1", .strv "es", .numv 5, .numv 2, .numv 3⟩]).demographics.filter
        (fun r => r.participant_id == .strv "p1")
      = [demoRowOf ⟨.strv "p1", .strv "es", .numv 5, .numv 2, .numv 3⟩] :=
  demographics_upsert_latest initState
    [⟨.strv "p1", .strv "es", .numv 4, .numv 2, .numv 3⟩,
     ⟨.strv "p1", .strv "es", .numv 5, .numv 2, .numv 3⟩]
    (.strv "p1") ⟨.strv "p1", .strv "es", .numv 5, .numv 2, .numv 3⟩
    rfl (by decide) rfl

/-- Claim C8: every valid survey-response and save-draft submission
appends exactly one new timestamped row to its own collection, from
any state (so repeated participant and scenario values still each add
a separate row), with the behavioral flag coerced to 1 when truthy
and 0 otherwise. -/
theorem append_only_single_row (st : ServerState) (bS : SurveyBody) (bD : SaveDraftBody)
    (tsS tsD : String)
    (h1 : truthy bS.participant_id = true) (h2 : truthy bS.scenario = true)
    (h3 : truthy bD.participant_id = true) (h4 : truthy bD.scenario = true)
    (h5 : truthy bD.draft_text = true) :
    ((surveyResponseHandler st bS tsS).1.survey_responses
      = st.survey_responses ++
          [⟨bS.participant_id, bS.scenario, bS.draft_text, bS.used_ai_self_report,
            if truthy bS.used_ai_behavioral then 1 else 0,
            bS.perceived_risk, bS.authenticity, tsS⟩]) ∧
    (surveyResponseHandler st bS tsS).1.survey_responses.length
      = st.survey_responses.length + 1 ∧
    ((saveDraftHandler st bD tsD).1.final_drafts
      = st.final_drafts ++ [⟨bD.participant_id, bD.scenario, bD.draft_text, tsD⟩]) ∧
    (saveDraftHandler st bD tsD).1.final_drafts.length
      = st.final_drafts.length + 1 ∧
    (surveyResponseHandler st bS tsS).2 = ⟨200, .statusSaved⟩ ∧
    (saveDraftHandler st bD tsD).2 = ⟨200, .statusSaved⟩ := by
  have hS : (!truthy bS.participant_id || !truthy bS.scenario) = false := by
    rw [h1, h2]; rfl
  have hD : (!truthy bD.participant_id || !truthy bD.scenario || !truthy bD.draft_text) = false := by
    rw [h3, h4, h5]; rfl
  unfold surveyResponseHandler saveDraftHandler
  rw [hS, hD]
  simp

/-- Witness for C8 at concrete submissions. -/
theorem append_only_single_row_witness :
    (surveyResponseHandler initState
        ⟨.strv "p1", .strv "s", .strv "d", .strv "no", .boolv true, .numv 3, .numv 4⟩
        "t").1.survey_responses.length
      = initState.survey_responses.length + 1 ∧
    (saveDraftHandler initState ⟨.strv "p1", .strv "s", .strv "final"⟩ "t2").1.final_drafts.length
      = initState.final_drafts.length + 1 :=
  ⟨(append_only_single_row initState
      ⟨.strv "p1", .strv "s", .strv "d", .strv "no", .boolv true, .numv 3, .numv 4⟩
      ⟨.strv "p1", .strv "s", .strv "final"⟩ "t" "t2" rfl rfl rfl rfl rfl).2.1,
   (append_only_single_row initState
      ⟨.strv "p1", .strv "s", .strv "d", .strv "no", .boolv true, .numv 3, .numv 4⟩
      ⟨.strv "p1", .strv "s", .strv "final"⟩ "t" "t2" rfl rfl rfl rfl rfl).2.2.2.1⟩

/-- Claim C9: a POST request whose body lacks a required field (the
field destructures to the undefined value) gets a 400 response whose
body is the fixed error object, and the handler returns the state
completely untouched — no table row written, no conversation change.
Required fields: participant id for demographics; id and scenario for
survey responses; userId, message and scenario for chat; id, scenario
and draft text for save-draft. -/
theorem missing_field_rejected (st : ServerState) :
    (∀ b : DemographicsBody, b.participant_id = .undef →
      demographicsHandler st b = (st, ⟨400, .errorBody "Missing participant_id"⟩)) ∧
    (∀ (b : SurveyBody) (ts : String), b.participant_id = .undef ∨ b.scenario = .undef →
      surveyResponseHandler st b ts = (st, ⟨400, .errorBody "Missing required fields"⟩)) ∧
    (∀ (b : ChatBody) (gw : GatewayResult) (ts : String),
        b.userId = .undef ∨ b.message = .undef ∨ b.scenario = .undef →
      chatHandler st b gw ts = (st, ⟨400, .errorBody "Missing userId, message, or scenario"⟩)) ∧
    (∀ (b : SaveDraftBody) (ts : String),
        b.participant_id = .undef ∨ b.scenario = .undef ∨ b.draft_text = .undef →
      saveDraftHandler st b ts = (st, ⟨400, .errorBody "Missing required fields"⟩)) := by
  refine ⟨?_, ?_, ?_, ?_⟩
  · intro b hb
    unfold demographicsHandler
    rw [if_pos (by simp [hb, truthy])]
  · intro b ts hb
    unfold surveyResponseHandler
    rcases hb with hb | hb <;> rw [if_pos (by simp [hb, truthy])]
  · intro b gw ts hb
    exact chatHandler_invalid st b gw ts
      (by rcases hb with hb | hb | hb <;> simp [hb, truthy])
  · intro b ts hb
    unfold saveDraftHandler
    rcases hb with hb | hb | hb <;> rw [if_pos (by simp [hb, truthy])]

/-- Witness for C9: a demographics body without participant id is
rejected with 400 and the state is returned unchanged. -/
theorem missing_field_rejected_witness :
    demographicsHandler initState ⟨.undef, .strv "es", .numv 4, .numv 2, .numv 3⟩
      = (initState, ⟨400, .errorBody "Missing participant_id"⟩) :=
  (missing_field_rejected initState).1 ⟨.undef, .strv "es", .numv 4, .numv 2, .numv 3⟩ rfl

/-- Claim C10: a chat request with truthy userId, message and scenario
but with the draft field absent from the body is not rejected by
validation: the handler proceeds through the full chat algorithm (the
response status is never 400) and the user turn pushed onto the
conversation fills the draft slot of the fixed template with the host
language rendering of the missing value, the string undefined. -/
theorem chat_absent_draft_proceeds (st : ServerState) (b : ChatBody) (gw : GatewayResult)
    (ts : String)
    (hu : truthy b.userId = true) (hm : truthy b.message = true)
    (hs : truthy b.scenario = true) (hd : b.draft = .undef) :
    (chatHandler st b gw ts).2.status ≠ 400 ∧
    (chatHandler st b gw ts).1.conversations (jsToString b.userId) (jsToString b.scenario)
      = some (priorConvo st.conversations (jsToString b.userId) (jsToString b.scenario)
          ++ ⟨"user", "Draft:\nundefined\n\nUser request:\n" ++ jsToString b.message⟩ :: gwTail gw) := by
  obtain ⟨h1, -, h3, -, -, -, -⟩ := chatHandler_valid st b gw ts hu hm hs
  constructor
  · rw [h3]
    cases gw <;> simp
  · rw [h1, hd]
    rfl

/-- Witness for C10: the concrete draft-less chat request is not
rejected as a validation error. -/
theorem chat_absent_draft_proceeds_witness :
    (chatHandler initState ⟨.strv "p1", .strv "hi", .strv "s", .undef⟩ .err "t").2.status ≠ 400 :=
  (chat_absent_draft_proceeds initState ⟨.strv "p1", .strv "hi", .strv "s", .undef⟩ .err "t"
    rfl rfl rfl rfl).1

end Survey
